import Mathlib

/-!
Verification development for the obscurity-engine repository.

The definitions below are a shallow embedding of the query-orchestration,
deduplication, enrichment-scoring and filtering core found in
`src/app.py`, `src/modules/youtube_engine.py` and
`src/modules/secrets_manager.py`.  Python strings are modelled by `String`
(ASCII case folding), Python ints by `Int`/`Nat`, Python floats by `ℚ`
(with explicit banker's rounding where the source calls `round`), and the
external search/detail providers by arbitrary functions from a call
counter to a response, so that every failure pattern is quantified over.
-/

namespace ObscurityEngine

/-- Whitespace recognised by Python's default `str.strip` and the regex
class `\s` (restricted to the ASCII range, which is all the source's
patterns exercise). -/
def pySpace (c : Char) : Bool :=
  c == ' ' || c == '\t' || c == '\n' || c == '\r' || c == '\x0b' || c == '\x0c'

/-- Characters of a string with leading and trailing whitespace removed,
mirroring Python `str.strip()`. -/
def stripChars (s : List Char) : List Char :=
  ((s.dropWhile pySpace).reverse.dropWhile pySpace).reverse

/-- Python `str.strip()`. -/
def pstrip (s : String) : String := ⟨stripChars s.data⟩

/-- Python `str.lower()` (ASCII case folding). -/
def lowerChars (s : List Char) : List Char := s.map Char.toLower

/-- Python `str.lower()` on a `String`. -/
def lowerStr (s : String) : String := ⟨lowerChars s.data⟩

/-- Does `hay` start with `needle` (character lists)? -/
def startsWithL : List Char → List Char → Bool
  | [], _ => true
  | _ :: _, [] => false
  | a :: as, b :: bs => a == b && startsWithL as bs

/-- Python's `needle in hay` substring test on character lists. -/
def containsL (needle : List Char) : List Char → Bool
  | [] => needle.isEmpty
  | c :: rest => startsWithL needle (c :: rest) || containsL needle rest

/-- Python's `sub in hay` substring test on strings. -/
def hasSub (hay sub : String) : Bool := containsL sub.data hay.data

/-!
A miniature regex engine covering exactly the constructs used by
`DEFAULT_FILENAME_RE` in `src/modules/youtube_engine.py`: anchored
(`re.match`) sequences of character classes with `{lo,}`/`{lo,hi}`/`?`
quantifiers and an optional `$` end anchor, matched case-insensitively
(inputs are lowercased first, patterns are written lowercased).
-/

/-- One character class with a repetition range (`hi = none` means
unbounded, as in `{3,}`). -/
structure CC where
  p : Char → Bool
  lo : Nat
  hi : Option Nat

/-- A regex element: a quantified character class or the `$` anchor. -/
inductive RE where
  | cc (q : CC)
  | eos

/-- Length of the maximal prefix of `s` whose characters satisfy `p`. -/
def runLen (p : Char → Bool) : List Char → Nat
  | [] => 0
  | c :: rest => if p c then runLen p rest + 1 else 0

/-- Anchored match of a pattern against the start of `s` (full
backtracking over the possible repetition counts of each class),
mirroring Python `re.match`. -/
def matchSeq : List RE → List Char → Bool
  | [], _ => true
  | RE.eos :: rest, s => s.isEmpty && matchSeq rest s
  | RE.cc q :: rest, s =>
      let m := runLen q.p s
      let top := match q.hi with | none => m | some h => min h m
      (List.range (top + 1)).any fun k => decide (q.lo ≤ k) && matchSeq rest (s.drop k)

/-- Literal character (after case folding), occurring exactly once. -/
def lit1 (c : Char) : RE := RE.cc ⟨fun x => x == c, 1, some 1⟩

/-- A literal string of the pattern. -/
def lits (s : String) : List RE := s.data.map lit1

/-- A character class occurring exactly once. -/
def cls1 (p : Char → Bool) : RE := RE.cc ⟨p, 1, some 1⟩

/-- A character class with an explicit repetition range. -/
def rep (p : Char → Bool) (lo : Nat) (hi : Option Nat) : RE := RE.cc ⟨p, lo, hi⟩

/-- Regex `\d` (ASCII digit). -/
def isDig (c : Char) : Bool := '0' ≤ c && c ≤ '9'

/-- The character class `[\s_-]` used throughout the filename patterns. -/
def sudC (c : Char) : Bool := pySpace c || c == '_' || c == '-'

/-- Regex `[\s_-]`. -/
def sud1 : RE := cls1 sudC

/-- Regex `[\s_-]?`. -/
def sud01 : RE := rep sudC 0 (some 1)

/-- Regex `\d{n,}`. -/
def dmin (n : Nat) : RE := rep isDig n none

/-- Regex `\d{n}`. -/
def dexact (n : Nat) : RE := rep isDig n (some n)

/-- Regex `\d{lo,hi}`. -/
def drange (lo hi : Nat) : RE := rep isDig lo (some hi)

/-- The fixed library of default-filename regexes (`DEFAULT_FILENAME_RE`),
transcribed pattern by pattern, lowercased because matching is done under
`re.IGNORECASE` on the lowercased input. -/
def DEFAULT_FILENAME_RE : List (List RE) := [
  lits "img" ++ [sud1, dmin 3],
  lits "dsc" ++ [rep (fun c => c == 'n' || c == 'f') 0 (some 1), sud01, dmin 3],
  lits "mov" ++ [sud1, dmin 3],
  lits "vid" ++ [sud01, dmin 4],
  lits "mvi" ++ [sud1, dmin 3],
  lits "gop" ++ [rep (fun c => c == 'r') 0 (some 1), dmin 3],
  lits "g" ++ [cls1 (fun c => c == 'x' || c == 'h' || c == 'p'), dmin 4],
  lits "dji" ++ [sud1, dmin 3],
  lits "sam" ++ [sud1, dmin 3],
  lits "p" ++ [dexact 7],
  lits "20" ++ [dexact 2, sud01, dexact 2, sud01, dexact 2],
  lits "video" ++ [sud01, drange 1 4, RE.eos],
  lits "clip" ++ [sud01, dexact 1],
  lits "trim" ++ [cls1 (fun c => pySpace c || c == '.' || c == '_')],
  lits "untitled",
  lits "movie on " ++ [dexact 1],
  lits "recording" ++ [sud01, dexact 1],
  lits "screen recording",
  lits "screencast",
  lits "capture" ++ [sud01, dexact 1],
  [drange 3 4, sud1, drange 3 4, RE.eos],
  lits "cimg" ++ [dmin 3],
  lits "pict" ++ [dmin 3],
  lits "crw" ++ [sud1, dmin 3],
  lits "imgp" ++ [dmin 3],
  lits "_mg_" ++ [dmin 3],
  lits "100" ++ [sud1, dmin 3],
  lits "vlcsnap",
  lits "bandicam",
  lits "obs" ++ [sud1],
  lits "rec" ++ [sud1, dexact 1],
  lits "win" ++ [sud1, dexact 1],
  lits "fullsizerender",
  lits "rpreplay",
  lits "inshot" ++ [sud1],
  lits "new video" ++ [RE.eos],
  lits "test" ++ [RE.eos],
  lits "copy of ",
  lits "video" ++ [RE.eos],
  [dmin 10, RE.eos],
  [rep (fun c => isDig c || ('a' ≤ c && c ≤ 'f')) 8 none, RE.eos],
  [rep (fun c => 'a' ≤ c && c ≤ 'z') 2 (some 4), sud1, dmin 4, RE.eos]
]

/-- Source `detect_default_filename`: the stripped title matches some
pattern of the library, case-insensitively and anchored at the start. -/
def detect_default_filename (title : String) : Bool :=
  DEFAULT_FILENAME_RE.any (fun pat => matchSeq pat (lowerChars (stripChars title.data)))

/-- The fixed "weirdness booster" keyword list (`WEIRDNESS_BOOSTERS`). -/
def WEIRDNESS_BOOSTERS : List String := [
  "found footage", "abandoned", "3am", "liminal", "backrooms", "vhs",
  "old tape", "camcorder", "security camera", "cctv", "dashcam",
  "trail cam", "baby monitor", "answering machine", "voicemail",
  "thrift store", "yard sale", "estate sale", "dumpster",
  "strange noise", "unknown", "mysterious", "unexplained",
  "glitch", "corrupted", "cursed", "weird", "creepy",
  "empty", "nobody", "forgotten", "lost media",
  "found in attic", "found in basement", "hidden camera",
  "ring doorbell", "infrared", "night vision", "thermal",
  "police scanner", "ham radio", "shortwave", "numbers station",
  "elevator", "stairwell", "parking garage", "tunnel",
  "underwater", "cave", "sewer", "drain",
  "time capsule", "1990s", "2000s", "childhood",
  "before internet", "dialup", "geocities"
]

/-- Python's `round`-to-integer (banker's rounding: ties go to the even
integer), on rationals. -/
def rhe (x : ℚ) : ℤ :=
  let f := Int.floor x
  let r := x - f
  if r < 1 / 2 then f
  else if 1 / 2 < r then f + 1
  else if f % 2 = 0 then f else f + 1

/-- Python `round(x, 1)`. -/
def pyRound1 (x : ℚ) : ℚ := (rhe (x * 10) : ℚ) / 10

/-- Python `round(x, 4)`. -/
def pyRound4 (x : ℚ) : ℚ := (rhe (x * 10000) : ℚ) / 10000

/-- View-based block of `compute_weirdness_score` (commented "max 30"). -/
def viewBand (views : ℤ) : ℚ :=
  if views = 0 then 30
  else if views ≤ 3 then 27
  else if views ≤ 10 then 22
  else if views ≤ 50 then 15
  else if views ≤ 200 then 10
  else if views ≤ 1000 then 5
  else 0

/-- Temporal-decay block of `compute_weirdness_score` (commented "max 18"). -/
def temporalBand (age_days views : ℤ) : ℚ :=
  if 5475 < age_days ∧ views ≤ 10 then 18
  else if 3650 < age_days ∧ views ≤ 10 then 15
  else if 1825 < age_days ∧ views ≤ 10 then 12
  else if 730 < age_days ∧ views ≤ 10 then 8
  else if 365 < age_days ∧ views ≤ 5 then 5
  else 0

/-- Title block of `compute_weirdness_score` (commented "max 18"). -/
def titleBand (title : String) (title_entropy : ℚ) (all_caps numbers_only : Bool) : ℚ :=
  (if detect_default_filename title then 10 else 0)
  + (if numbers_only then 5 else 0)
  + (if all_caps ∧ 5 < title.length then 3 else 0)
  + (if title_entropy < 2 ∧ 3 < title.length then 3
     else if (4.5 : ℚ) < title_entropy then 2 else 0)

/-- Description block of `compute_weirdness_score` (commented "max 8"). -/
def descBand (description : String) (desc_length : ℤ) (tags : List String) : ℚ :=
  (if description = "" ∨ desc_length < 5 then 5
   else if desc_length < 20 then 3 else 0)
  + (if tags = [] then 3 else 0)

/-- Duration block of `compute_weirdness_score` (commented "max 6"). -/
def durationBand (duration_seconds : ℤ) : ℚ :=
  if 0 < duration_seconds ∧ duration_seconds < 3 then 4
  else if 0 < duration_seconds ∧ duration_seconds < 10 then 3
  else if 7200 < duration_seconds then 4
  else if 3600 < duration_seconds then 3
  else 0

/-- Engagement-ghost block of `compute_weirdness_score` (commented "max 10"). -/
def ghostBand (likes comments views : ℤ) : ℚ :=
  if likes = 0 ∧ comments = 0 then
    if views ≤ 10 then 10 else if views ≤ 100 then 5 else 0
  else 0

/-- Views-per-day block of `compute_weirdness_score` (commented "max 4"). -/
def vpdBand (age_days : ℤ) (views_per_day : ℚ) : ℚ :=
  if 365 < age_days ∧ views_per_day < 1 / 100 then 4
  else if 365 < age_days ∧ views_per_day < 1 / 20 then 2
  else 0

/-- Geolocation block of `compute_weirdness_score` (commented "max 3"). -/
def geoBand (has_location : Bool) : ℚ := if has_location then 3 else 0

/-- Keyword block of `compute_weirdness_score` (commented "max 4"):
`min(4, weird_hits * 2)` where `weird_hits` counts the boosters occurring
in the lowercased `title + " " + description`. -/
def keywordBand (title description : String) : ℚ :=
  let combined := lowerStr (title ++ " " ++ description)
  let weird_hits := (WEIRDNESS_BOOSTERS.filter (fun kw => hasSub combined kw)).length
  min 4 ((weird_hits : ℚ) * 2)

/-- Source `compute_weirdness_score`: the sequential accumulation of the
nine commented blocks, then `min(100.0, max(0.0, round(score, 1)))`. -/
def compute_weirdness_score (title description : String)
    (views likes comments duration_seconds age_days : ℤ) (tags : List String)
    (has_location : Bool) (title_entropy : ℚ) (desc_length : ℤ)
    (all_caps numbers_only : Bool) (views_per_day : ℚ) : ℚ :=
  let score : ℚ :=
    viewBand views
    + temporalBand age_days views
    + titleBand title title_entropy all_caps numbers_only
    + descBand description desc_length tags
    + durationBand duration_seconds
    + ghostBand likes comments views
    + vpdBand age_days views_per_day
    + geoBand has_location
    + keywordBand title description
  min 100 (max 0 (pyRound1 score))

/-- C1: for every field set, `compute_weirdness_score` is deterministic
(two evaluations on identical inputs coincide), its result lies in
[0, 100], and it is a multiple of one tenth (rounded to one decimal). -/
theorem c1_weirdness_deterministic_bounded_one_decimal :
    ∀ (title description : String)
      (views likes comments duration_seconds age_days : ℤ) (tags : List String)
      (has_location : Bool) (title_entropy : ℚ) (desc_length : ℤ)
      (all_caps numbers_only : Bool) (views_per_day : ℚ),
      compute_weirdness_score title description views likes comments duration_seconds
          age_days tags has_location title_entropy desc_length all_caps numbers_only
          views_per_day
        = compute_weirdness_score title description views likes comments duration_seconds
          age_days tags has_location title_entropy desc_length all_caps numbers_only
          views_per_day
      ∧ 0 ≤ compute_weirdness_score title description views likes comments duration_seconds
          age_days tags has_location title_entropy desc_length all_caps numbers_only
          views_per_day
      ∧ compute_weirdness_score title description views likes comments duration_seconds
          age_days tags has_location title_entropy desc_length all_caps numbers_only
          views_per_day ≤ 100
      ∧ ∃ k : ℤ, compute_weirdness_score title description views likes comments
          duration_seconds age_days tags has_location title_entropy desc_length all_caps
          numbers_only views_per_day = (k : ℚ) / 10 := by
  intro title description views likes comments duration_seconds age_days tags
    has_location title_entropy desc_length all_caps numbers_only views_per_day
  unfold compute_weirdness_score pyRound1
  refine ⟨rfl, le_min (by norm_num) (le_max_left _ _), min_le_left _ _, ?_⟩
  set r : ℤ := rhe ((viewBand views
    + temporalBand age_days views
    + titleBand title title_entropy all_caps numbers_only
    + descBand description desc_length tags
    + durationBand duration_seconds
    + ghostBand likes comments views
    + vpdBand age_days views_per_day
    + geoBand has_location
    + keywordBand title description) * 10) with hr
  refine ⟨min 1000 (max 0 r), ?_⟩
  have h10 : (0 : ℚ) < 10 := by norm_num
  rw [Int.cast_min, Int.cast_max, ← min_div_div_right (le_of_lt h10),
    ← max_div_div_right (le_of_lt h10)]
  norm_num

/-- C2 counterexample: the view-count band of `compute_weirdness_score`
does not give 0 points at `views = 500` (it gives 5), so the claim
"views = 0 contributes 30 and views = 500 contributes 0" is false. -/
theorem c2_counterexample_view_band_500 :
    ¬ (viewBand 0 = 30 ∧ viewBand 500 = 0) := by
  decide

/-- C2 (amended): the view-count band contributes exactly 30 points at
`views = 0`, 5 points at `views = 500` (the `views <= 1000` threshold),
and 0 points only above 1000 views. -/
theorem c2_view_band_values :
    viewBand 0 = 30 ∧ viewBand 500 = 5 ∧ viewBand 1001 = 0 := by
  decide

/-!
The paginated query executor of `src/app.py` (`_yt`).  The external
search provider is modelled as an arbitrary function from the number of
provider calls made so far to a response, so all success/failure
patterns are covered.  An exception value carries an optional HTTP
status and a message, as `_yt`'s classifier inspects both.
-/

/-- A raw search hit: the extracted video identifier (empty when the
payload id was missing/unparseable) plus an opaque payload tag. -/
structure SearchHit where
  videoId : String
  payload : Nat
deriving DecidableEq

/-- An exception, as observed by `_yt`'s handler: optional HTTP status
(`e.resp.status` when present) and the text `str(e)`. -/
structure Exn where
  status : Option ℤ
  msg : String
deriving DecidableEq

/-- What the remote search service does on one call: return data or
raise. -/
inductive ServiceResp where
  | ok (items : List SearchHit) (nextPageToken : Option String)
  | exn (e : Exn)

/-- The dictionary returned by `search_youtube`. -/
structure SearchResult where
  items : List SearchHit
  nextPageToken : Option String
  error : Option String
deriving DecidableEq

/-- Source `search_youtube` (`src/modules/youtube_engine.py` lines
295-340): every exception is caught and surfaced as a result dictionary
with empty `items`, no `nextPageToken` and an `error` string — the
function itself never raises. -/
def search_youtube (resp : ServiceResp) : SearchResult :=
  match resp with
  | .ok items tok => ⟨items, tok, none⟩
  | .exn e => ⟨[], none, some e.msg⟩

/-- Source `_yt`'s quota classifier: `is_quota` is set when the exception
has `resp.status` in {403, 429} or when `"quota"` occurs in
`str(e).lower()`. -/
def isQuotaErr (e : Exn) : Bool :=
  (match e.status with
   | some s => decide (s = 403 ∨ s = 429)
   | none => false)
  || hasSub (lowerStr e.msg) "quota"

/-- Mutable state of `_yt`'s per-query loops: accumulated hits `ai`,
`fetched_count`, `next_page_token`, `current_key_idx`, and the number of
provider calls made (the model's call counter). -/
structure YtState where
  ai : List SearchHit
  fetchedCount : Nat
  nextPageToken : Option String
  currentKeyIdx : Nat
  calls : Nat
deriving DecidableEq

/-- Source `_yt`'s inner retry loop (`while retry < max_retries`), with
the fuel argument playing the role of `max_retries - retry`.  One step:
call `search_youtube`; if it reports an error dictionary, `_yt` raises
`HttpError(MockResp(403), b"Quota")`, which its own handler classifies
with `isQuotaErr` — quota means mark the key exhausted and retry the same
page with the next key if one remains, else terminate the query
(`fetched_count = mpq + 1`); a non-quota exception would terminate the
query without retry.  On success, items are accumulated and the loop
breaks, forcing query termination when the page was empty or carried no
next-page token. -/
def pageLoop (provider : Nat → ServiceResp) (numKeys mpq : Nat) :
    Nat → YtState → YtState
  | 0, st => st
  | fuel + 1, st =>
    let r := search_youtube (provider st.calls)
    let st1 : YtState := { st with calls := st.calls + 1 }
    match r.error with
    | some _ =>
      let e : Exn := ⟨some 403, "Quota"⟩
      if isQuotaErr e then
        if st1.currentKeyIdx + 1 < numKeys then
          pageLoop provider numKeys mpq fuel
            { st1 with currentKeyIdx := st1.currentKeyIdx + 1 }
        else
          { st1 with currentKeyIdx := st1.currentKeyIdx + 1, fetchedCount := mpq + 1 }
      else
        { st1 with fetchedCount := mpq + 1 }
    | none =>
      let st2 :=
        if r.items.isEmpty then st1
        else { st1 with ai := st1.ai ++ r.items,
                        fetchedCount := st1.fetchedCount + r.items.length,
                        nextPageToken := r.nextPageToken }
      if r.items.isEmpty || st2.nextPageToken.isNone then
        { st2 with fetchedCount := mpq + 1 }
      else st2

/-- Source `_yt`'s outer page loop for one query
(`while fetched_count < mpq`), with an explicit page budget; each
iteration runs the retry loop with its `max_retries = len(keys) + 1`
budget. -/
def queryLoop (provider : Nat → ServiceResp) (numKeys mpq : Nat) :
    Nat → YtState → YtState
  | 0, st => st
  | pages + 1, st =>
    if st.fetchedCount < mpq then
      queryLoop provider numKeys mpq pages (pageLoop provider numKeys mpq (numKeys + 1) st)
    else st

/-- Each run of the retry loop makes at most `fuel` provider calls. -/
theorem pageLoop_calls_le (provider : Nat → ServiceResp) (numKeys mpq : Nat) :
    ∀ (fuel : Nat) (st : YtState),
      (pageLoop provider numKeys mpq fuel st).calls ≤ st.calls + fuel := by
  intro fuel
  induction fuel with
  | zero => intro st; simp [pageLoop]
  | succ f ih =>
    intro st
    simp only [pageLoop]
    split
    · split
      · split
        · exact le_trans (ih _) (by simp; try omega)
        · simp; try omega
      · simp; try omega
    · split <;> split <;> (simp; try omega)

/-- The retry loop never decreases the credential cursor. -/
theorem pageLoop_keyIdx_mono (provider : Nat → ServiceResp) (numKeys mpq : Nat) :
    ∀ (fuel : Nat) (st : YtState),
      st.currentKeyIdx ≤ (pageLoop provider numKeys mpq fuel st).currentKeyIdx := by
  intro fuel
  induction fuel with
  | zero => intro st; simp [pageLoop]
  | succ f ih =>
    intro st
    simp only [pageLoop]
    split
    · split
      · split
        · exact le_trans (by simp) (ih _)
        · simp
      · simp
    · split <;> split <;> simp

/-- The outer loop never decreases the credential cursor. -/
theorem queryLoop_keyIdx_mono (provider : Nat → ServiceResp) (numKeys mpq : Nat) :
    ∀ (pages : Nat) (st : YtState),
      st.currentKeyIdx ≤ (queryLoop provider numKeys mpq pages st).currentKeyIdx := by
  intro pages
  induction pages with
  | zero => intro st; simp [queryLoop]
  | succ p ih =>
    intro st
    simp only [queryLoop]
    split
    · exact le_trans (pageLoop_keyIdx_mono provider numKeys mpq _ st) (ih _)
    · exact le_refl _

/-- The outer loop with a budget of `pages` pages makes at most
`pages * (numKeys + 1)` provider calls. -/
theorem queryLoop_calls_le (provider : Nat → ServiceResp) (numKeys mpq : Nat) :
    ∀ (pages : Nat) (st : YtState),
      (queryLoop provider numKeys mpq pages st).calls ≤ st.calls + pages * (numKeys + 1) := by
  intro pages
  induction pages with
  | zero => intro st; simp [queryLoop]
  | succ p ih =>
    intro st
    simp only [queryLoop]
    split
    · refine le_trans (ih _) ?_
      have h := pageLoop_calls_le provider numKeys mpq (numKeys + 1) st
      calc (pageLoop provider numKeys mpq (numKeys + 1) st).calls + p * (numKeys + 1)
          ≤ st.calls + (numKeys + 1) + p * (numKeys + 1) := by omega
        _ = st.calls + (p + 1) * (numKeys + 1) := by ring
    · omega

/-- Progress: as long as the credential cursor has not run past the pool
and the retry budget covers the remaining credentials, one run of the
retry loop strictly increases `fetched_count` (either by accumulating a
non-empty page or by jumping to the `mpq + 1` sentinel). -/
theorem pageLoop_progress (provider : Nat → ServiceResp) (numKeys mpq : Nat) :
    ∀ (fuel : Nat) (st : YtState), st.fetchedCount ≤ mpq →
      st.currentKeyIdx ≤ numKeys → numKeys + 1 ≤ fuel + st.currentKeyIdx →
      st.fetchedCount < (pageLoop provider numKeys mpq fuel st).fetchedCount := by
  intro fuel
  induction fuel with
  | zero => intro st h1 h2 h3; omega
  | succ f ih =>
    intro st h1 h2 h3
    simp only [pageLoop]
    split
    · split
      · split
        · rename_i hlt
          have hlt' : st.currentKeyIdx + 1 < numKeys := hlt
          exact ih ⟨st.ai, st.fetchedCount, st.nextPageToken, st.currentKeyIdx + 1,
            st.calls + 1⟩ h1 (le_of_lt hlt')
            (by show numKeys + 1 ≤ f + (st.currentKeyIdx + 1); omega)
        · show st.fetchedCount < mpq + 1
          omega
      · show st.fetchedCount < mpq + 1
        omega
    · cases hitems : (search_youtube (provider st.calls)).items with
      | nil => simp [hitems]; omega
      | cons a l =>
        cases htok : (search_youtube (provider st.calls)).nextPageToken with
        | none => simp [hitems, htok]; omega
        | some t => simp [hitems, htok]; try omega

/-- The retry loop keeps the cursor within the pool unless it ends the
query: afterwards either the cursor is still at most `numKeys` or the
query was forced done (`fetched_count = mpq + 1`). -/
theorem pageLoop_keyIdx_inv (provider : Nat → ServiceResp) (numKeys mpq : Nat) :
    ∀ (fuel : Nat) (st : YtState), st.currentKeyIdx ≤ numKeys →
      (pageLoop provider numKeys mpq fuel st).currentKeyIdx ≤ numKeys ∨
        (pageLoop provider numKeys mpq fuel st).fetchedCount = mpq + 1 := by
  intro fuel
  induction fuel with
  | zero => intro st h; exact Or.inl h
  | succ f ih =>
    intro st h
    simp only [pageLoop]
    split
    · split
      · split
        · rename_i hlt
          have hlt' : st.currentKeyIdx + 1 < numKeys := hlt
          exact ih ⟨st.ai, st.fetchedCount, st.nextPageToken, st.currentKeyIdx + 1,
            st.calls + 1⟩ (le_of_lt hlt')
        · exact Or.inr rfl
      · exact Or.inr rfl
    · split <;> split <;> exact Or.inl h

/-- Once `fetched_count` has reached the target, the outer loop is
inert. -/
theorem queryLoop_stable (provider : Nat → ServiceResp) (numKeys mpq : Nat) :
    ∀ (pages : Nat) (st : YtState), mpq ≤ st.fetchedCount →
      queryLoop provider numKeys mpq pages st = st := by
  intro pages
  induction pages with
  | zero => intro st _; rfl
  | succ p _ =>
    intro st h
    simp only [queryLoop]
    split
    · omega
    · rfl

/-- Termination of the outer loop: a budget of `mpq` pages already
reaches a fixpoint — any further budget returns the same state. -/
theorem queryLoop_fixpoint (provider : Nat → ServiceResp) (numKeys mpq : Nat) :
    ∀ (pages : Nat) (st : YtState), st.currentKeyIdx ≤ numKeys →
      mpq ≤ st.fetchedCount + pages →
      ∀ (extra : Nat), queryLoop provider numKeys mpq (pages + extra) st
        = queryLoop provider numKeys mpq pages st := by
  intro pages
  induction pages with
  | zero =>
    intro st _ h2 extra
    have h : mpq ≤ st.fetchedCount := by omega
    rw [Nat.zero_add, queryLoop_stable provider numKeys mpq extra st h]
    rfl
  | succ p ih =>
    intro st h1 h2 extra
    by_cases hlt : st.fetchedCount < mpq
    · have hstep : ∀ n, queryLoop provider numKeys mpq (n + 1) st
          = queryLoop provider numKeys mpq n (pageLoop provider numKeys mpq (numKeys + 1) st) := by
        intro n; simp only [queryLoop]; rw [if_pos hlt]
      have hprog : st.fetchedCount <
          (pageLoop provider numKeys mpq (numKeys + 1) st).fetchedCount :=
        pageLoop_progress provider numKeys mpq (numKeys + 1) st (le_of_lt hlt) h1 (by omega)
      have hsum : p + 1 + extra = (p + extra) + 1 := by omega
      rw [hsum, hstep (p + extra), hstep p]
      rcases pageLoop_keyIdx_inv provider numKeys mpq (numKeys + 1) st h1 with hk | hdone
      · exact ih _ hk (by omega) extra
      · rw [queryLoop_stable provider numKeys mpq _ _ (by omega),
          queryLoop_stable provider numKeys mpq _ _ (by omega)]
    · have h : mpq ≤ st.fetchedCount := by omega
      rw [queryLoop_stable provider numKeys mpq _ _ h,
        queryLoop_stable provider numKeys mpq _ _ h]

/-- C3: for every provider behaviour (arbitrary pattern of successes,
quota failures and hard failures), every target count `mpq` and every
pool size `numKeys`: each page is attempted at most `numKeys + 1` times
(the retry budget `max_retries = len(keys) + 1`), a run of `pages` pages
makes at most `pages * (numKeys + 1)` provider calls, and the executor
terminates — a budget of `mpq` pages already reaches a fixpoint of the
outer loop. -/
theorem c3_executor_terminates_within_budget
    (provider : Nat → ServiceResp) (numKeys mpq : Nat) :
    (∀ st : YtState,
      (pageLoop provider numKeys mpq (numKeys + 1) st).calls ≤ st.calls + (numKeys + 1))
    ∧ (∀ (pages : Nat) (st : YtState),
      (queryLoop provider numKeys mpq pages st).calls ≤ st.calls + pages * (numKeys + 1))
    ∧ (∀ st : YtState, st.currentKeyIdx ≤ numKeys → ∀ extra : Nat,
      queryLoop provider numKeys mpq (mpq + extra) st
        = queryLoop provider numKeys mpq mpq st) :=
  ⟨fun st => pageLoop_calls_le provider numKeys mpq (numKeys + 1) st,
   fun pages st => queryLoop_calls_le provider numKeys mpq pages st,
   fun st h extra => queryLoop_fixpoint provider numKeys mpq mpq st h (by omega) extra⟩

/-- A provider that always fails with a quota-free hard error, used to
instantiate the executor theorems on a concrete run. -/
def demoProvider : Nat → ServiceResp := fun _ => .exn ⟨none, "boom"⟩

/-- The executor state at the start of a query, as `_yt` initialises it. -/
def initSt : YtState := ⟨[], 0, none, 0, 0⟩

/-- C3 witness: the bounds and the fixpoint instantiated on a concrete
always-failing provider with 2 credentials and a target of 3 results. -/
theorem c3_executor_terminates_within_budget_witness :
    (pageLoop demoProvider 2 3 3 initSt).calls ≤ initSt.calls + 3
    ∧ (queryLoop demoProvider 2 3 4 initSt).calls ≤ initSt.calls + 4 * 3
    ∧ queryLoop demoProvider 2 3 (3 + 5) initSt = queryLoop demoProvider 2 3 3 initSt :=
  ⟨(c3_executor_terminates_within_budget demoProvider 2 3).1 initSt,
   (c3_executor_terminates_within_budget demoProvider 2 3).2.1 4 initSt,
   (c3_executor_terminates_within_budget demoProvider 2 3).2.2 initSt (by decide) 5⟩

/-- The mock exception `_yt` raises for any error dictionary —
`HttpError(MockResp(403), b"Quota")` — is always classified as a quota
failure. -/
theorem isQuota_mock_true : isQuotaErr ⟨some 403, "Quota"⟩ = true := by decide

/-- A provider whose first call fails with a hard (non-quota) error and
whose second call succeeds with one hit and no further pages. -/
def hardThenOkProvider : Nat → ServiceResp := fun n =>
  if n = 0 then .exn ⟨none, "network unreachable"⟩ else .ok [⟨"vid1", 1⟩] none

/-- C4 counterexample: a page fetch failing with an error that is not a
quota/rate-limit failure (no HTTP status, no "quota" in the text) IS
re-attempted: `search_youtube` swallows it into an error dictionary,
`_yt` re-raises that as a 403 "Quota" `HttpError`, rotates to the next
credential and retries the page — here the run makes 2 provider calls
and still collects the hit, instead of transitioning to DONE after 1
call as the claim requires. -/
theorem c4_counterexample_hard_failure_retried :
    isQuotaErr ⟨none, "network unreachable"⟩ = false
    ∧ (pageLoop hardThenOkProvider 2 10 3 initSt).calls = 2
    ∧ (pageLoop hardThenOkProvider 2 10 3 initSt).ai = [⟨"vid1", 1⟩]
    ∧ ¬ ((pageLoop hardThenOkProvider 2 10 3 initSt).calls = 1) := by
  refine ⟨by decide, ?_, ?_, ?_⟩ <;> decide

/-- C4 (amended): every page-fetch failure — quota or hard — reaches
`_yt` as an error dictionary and is re-raised as a 403 quota error, so
whenever a further credential exists the executor rotates and retries
the same page (it never transitions to DONE without retry on a hard
failure while credentials remain). -/
theorem c4_amended_wrapper_errors_always_retried
    (provider : Nat → ServiceResp) (numKeys mpq fuel : Nat) (st : YtState) (e : Exn)
    (hp : provider st.calls = .exn e) (hk : st.currentKeyIdx + 1 < numKeys) :
    pageLoop provider numKeys mpq (fuel + 1) st
      = pageLoop provider numKeys mpq fuel
          ⟨st.ai, st.fetchedCount, st.nextPageToken, st.currentKeyIdx + 1, st.calls + 1⟩ := by
  simp only [pageLoop, hp, search_youtube]
  rw [if_pos isQuota_mock_true, if_pos hk]

/-- C4 amended witness: the retry-on-rotation behaviour at the concrete
hard-failing provider. -/
theorem c4_amended_wrapper_errors_always_retried_witness :
    pageLoop hardThenOkProvider 2 10 3 initSt
      = pageLoop hardThenOkProvider 2 10 2 ⟨[], 0, none, 1, 1⟩ :=
  c4_amended_wrapper_errors_always_retried hardThenOkProvider 2 10 2 initSt
    ⟨none, "network unreachable"⟩ rfl (by decide)

/-- Source `rotate_api_key` (`src/modules/secrets_manager.py` lines
91-97): with at most one key the cursor is untouched; otherwise the
persistent cursor `_YT_KEY_IDX` becomes `(idx + 1) % len(keys)`. -/
def rotate_api_key (idx numKeys : Nat) : Nat :=
  if numKeys ≤ 1 then idx else (idx + 1) % numKeys

/-- C8 counterexample: the secrets manager's rotation is not monotone —
with a pool of 2 keys, rotating from cursor 1 wraps around to 0, moving
the cursor backwards and reusing the first (exhausted) credential. -/
theorem c8_counterexample_rotation_wraps :
    rotate_api_key 1 2 = 0 ∧ ¬ (1 ≤ rotate_api_key 1 2) := by
  decide

/-- C8 (amended): inside the executor `_yt` the credential cursor is
monotone non-decreasing under every rotation (both per page and across
pages), and once the cursor has run past the pool a further failing call
is terminal: one attempt, cursor advanced once more, query forced done —
no exhausted credential is ever reused there.  The secrets manager's
`rotate_api_key`, by contrast, advances its persistent cursor modulo the
pool size, wrapping from the last credential back to index 0. -/
theorem c8_amended_cursor_monotone_terminal :
    (∀ (provider : Nat → ServiceResp) (numKeys mpq fuel : Nat) (st : YtState),
      st.currentKeyIdx ≤ (pageLoop provider numKeys mpq fuel st).currentKeyIdx)
    ∧ (∀ (provider : Nat → ServiceResp) (numKeys mpq pages : Nat) (st : YtState),
      st.currentKeyIdx ≤ (queryLoop provider numKeys mpq pages st).currentKeyIdx)
    ∧ (∀ (provider : Nat → ServiceResp) (numKeys mpq fuel : Nat) (st : YtState) (e : Exn),
      numKeys ≤ st.currentKeyIdx → provider st.calls = .exn e →
      pageLoop provider numKeys mpq (fuel + 1) st
        = ⟨st.ai, mpq + 1, st.nextPageToken, st.currentKeyIdx + 1, st.calls + 1⟩)
    ∧ (∀ n : Nat, 2 ≤ n → rotate_api_key (n - 1) n = 0) := by
  refine ⟨fun provider numKeys mpq fuel st =>
      pageLoop_keyIdx_mono provider numKeys mpq fuel st,
    fun provider numKeys mpq pages st =>
      queryLoop_keyIdx_mono provider numKeys mpq pages st, ?_, ?_⟩
  · intro provider numKeys mpq fuel st e hk hp
    simp only [pageLoop, hp, search_youtube]
    rw [if_pos isQuota_mock_true, if_neg (by simp; omega)]
  · intro n hn
    unfold rotate_api_key
    rw [if_neg (by omega)]
    have h : n - 1 + 1 = n := by omega
    rw [h, Nat.mod_self]

/-- C8 amended witness: terminal no-capacity behaviour and the wraparound
fact, instantiated concretely. -/
theorem c8_amended_cursor_monotone_terminal_witness :
    pageLoop demoProvider 2 7 4 ⟨[], 0, none, 2, 5⟩
      = ⟨[], 8, none, 3, 6⟩
    ∧ rotate_api_key 1 2 = 0 :=
  ⟨c8_amended_cursor_monotone_terminal.2.2.1 demoProvider 2 7 3 ⟨[], 0, none, 2, 5⟩
      ⟨none, "boom"⟩ (by decide) rfl,
   c8_amended_cursor_monotone_terminal.2.2.2 2 (by decide)⟩

/-!
Deduplication of raw hits (`src/app.py` lines 260-263): walk the
accumulated list, keep a hit when its extracted identifier is non-empty
and unseen, remembering seen identifiers.
-/

/-- The dedup loop of `_yt`, with its `seen` set made explicit. -/
def dedupGo (seen : List String) : List SearchHit → List SearchHit
  | [] => []
  | it :: rest =>
    let vi := it.videoId
    if vi ≠ "" ∧ vi ∉ seen then it :: dedupGo (vi :: seen) rest
    else dedupGo seen rest

/-- Source dedup of `_yt`: `seen = set(); u = []; ...` starting empty. -/
def dedupHits (ai : List SearchHit) : List SearchHit := dedupGo [] ai

/-- Every identifier surviving `dedupGo` was not in the seen set. -/
theorem dedupGo_not_seen : ∀ (seen : List String) (l : List SearchHit) (h : SearchHit),
    h ∈ dedupGo seen l → h.videoId ∉ seen := by
  intro seen l
  induction l generalizing seen with
  | nil => intro h hmem; simp [dedupGo] at hmem
  | cons it rest ih =>
    intro h hmem
    simp only [dedupGo] at hmem
    split at hmem
    · rename_i hcond
      rcases List.mem_cons.mp hmem with heq | hmem'
      · subst heq; exact hcond.2
      · intro hin
        exact ih (it.videoId :: seen) h hmem' (List.mem_cons_of_mem _ hin)
    · exact ih seen h hmem

/-- The surviving identifiers are pairwise distinct. -/
theorem dedupGo_nodup : ∀ (seen : List String) (l : List SearchHit),
    ((dedupGo seen l).map (fun h => h.videoId)).Nodup := by
  intro seen l
  induction l generalizing seen with
  | nil => simp [dedupGo]
  | cons it rest ih =>
    simp only [dedupGo]
    split
    · simp only [List.map_cons, List.nodup_cons]
      constructor
      · intro hin
        rcases List.mem_map.mp hin with ⟨h, hmem, heq⟩
        exact dedupGo_not_seen _ _ h hmem (by rw [heq]; exact List.mem_cons_self _ _)
      · exact ih _
    · exact ih _

/-- Hits with an empty identifier are discarded. -/
theorem dedupGo_no_empty : ∀ (seen : List String) (l : List SearchHit) (h : SearchHit),
    h ∈ dedupGo seen l → h.videoId ≠ "" := by
  intro seen l
  induction l generalizing seen with
  | nil => intro h hmem; simp [dedupGo] at hmem
  | cons it rest ih =>
    intro h hmem
    simp only [dedupGo] at hmem
    split at hmem
    · rename_i hcond
      rcases List.mem_cons.mp hmem with heq | hmem'
      · subst heq; exact hcond.1
      · exact ih _ h hmem'
    · exact ih _ h hmem

/-- The deduplicated list is a subsequence of the input (first-seen
order preserved). -/
theorem dedupGo_sublist : ∀ (seen : List String) (l : List SearchHit),
    (dedupGo seen l).Sublist l := by
  intro seen l
  induction l generalizing seen with
  | nil => simp [dedupGo]
  | cons it rest ih =>
    simp only [dedupGo]
    split
    · exact List.Sublist.cons₂ it (ih _)
    · exact List.Sublist.cons it (ih _)

/-- On a list whose identifiers are non-empty, pairwise distinct and
disjoint from the seen set, `dedupGo` is the identity. -/
theorem dedupGo_clean : ∀ (l : List SearchHit) (seen : List String),
    (∀ h ∈ l, h.videoId ≠ "") → ((l.map (fun h => h.videoId)).Nodup) →
    (∀ h ∈ l, h.videoId ∉ seen) → dedupGo seen l = l := by
  intro l
  induction l with
  | nil => intro seen _ _ _; rfl
  | cons it rest ih =>
    intro seen hne hnd hdisj
    simp only [dedupGo]
    rw [if_pos ⟨hne it (List.mem_cons_self _ _), hdisj it (List.mem_cons_self _ _)⟩]
    simp only [List.map_cons, List.nodup_cons] at hnd
    congr 1
    refine ih _ (fun h hm => hne h (List.mem_cons_of_mem _ hm)) hnd.2 ?_
    intro h hm
    simp only [List.mem_cons]
    push_neg
    constructor
    · intro heq
      exact hnd.1 (heq ▸ List.mem_map_of_mem (fun x => x.videoId) hm)
    · exact hdisj h (List.mem_cons_of_mem _ hm)

/-- For any non-empty identifier, the representative kept by the dedup is
exactly the first-seen hit carrying it. -/
theorem dedupGo_find : ∀ (l : List SearchHit) (seen : List String) (v : String),
    v ≠ "" → v ∉ seen →
    (dedupGo seen l).find? (fun h => h.videoId == v) = l.find? (fun h => h.videoId == v) := by
  intro l
  induction l with
  | nil => intro seen v _ _; rfl
  | cons it rest ih =>
    intro seen v hv hvs
    simp only [dedupGo]
    by_cases hit : it.videoId = v
    · rw [if_pos ⟨hit ▸ hv, hit ▸ hvs⟩]
      rw [List.find?_cons_of_pos _ (by simp [hit]), List.find?_cons_of_pos _ (by simp [hit])]
    · rw [List.find?_cons_of_neg _ (by simp [hit])]
      split
      · rw [List.find?_cons_of_neg _ (by simp [hit])]
        refine ih _ v hv ?_
        simp only [List.mem_cons]
        push_neg
        exact ⟨fun heq => hit heq.symm, hvs⟩
      · exact ih _ v hv hvs

/-- A hit never killed by the seen set: if the identifier was already in
`seen`, nothing with that identifier survives. -/
theorem dedupGo_find_seen : ∀ (l : List SearchHit) (seen : List String) (v : String),
    v ∈ seen → (dedupGo seen l).find? (fun h => h.videoId == v) = none := by
  intro l
  induction l with
  | nil => intro seen v _; rfl
  | cons it rest ih =>
    intro seen v hvs
    simp only [dedupGo]
    split
    · rename_i hcond
      rw [List.find?_cons_of_neg _ (by
        simp only [beq_iff_eq]
        intro heq
        exact hcond.2 (heq ▸ hvs))]
      exact ih _ v (List.mem_cons_of_mem _ hvs)
    · exact ih _ v hvs

/-- C5: dedup keeps each identifier at most once (so merging the same
hit twice never yields two records with one identifier), discards hits
whose identifier is empty, preserves first-seen order (the output is a
subsequence of the input and each identifier's representative is its
first occurrence), and is idempotent. -/
theorem c5_dedup_first_seen_idempotent : ∀ ai : List SearchHit,
    ((dedupHits ai).map (fun h => h.videoId)).Nodup
    ∧ (∀ h ∈ dedupHits ai, h.videoId ≠ "")
    ∧ (dedupHits ai).Sublist ai
    ∧ dedupHits (dedupHits ai) = dedupHits ai
    ∧ (∀ v : String, v ≠ "" →
        (dedupHits ai).find? (fun h => h.videoId == v) = ai.find? (fun h => h.videoId == v)) := by
  intro ai
  refine ⟨dedupGo_nodup [] ai, fun h hm => dedupGo_no_empty [] ai h hm,
    dedupGo_sublist [] ai, ?_, fun v hv => dedupGo_find ai [] v hv (by simp)⟩
  exact dedupGo_clean (dedupGo [] ai) []
    (fun h hm => dedupGo_no_empty [] ai h hm) (dedupGo_nodup [] ai) (by simp)

/-- A concrete raw hit list with a duplicate identifier and an empty
identifier. -/
def demoHits : List SearchHit := [⟨"a", 1⟩, ⟨"", 2⟩, ⟨"a", 3⟩, ⟨"b", 4⟩]

/-- C5 witness: the dedup properties instantiated on a concrete list,
with the first-occurrence hypothesis discharged at identifier "a". -/
theorem c5_dedup_first_seen_idempotent_witness :
    ((dedupHits demoHits).map (fun h => h.videoId)).Nodup
    ∧ dedupHits (dedupHits demoHits) = dedupHits demoHits
    ∧ (dedupHits demoHits).find? (fun h => h.videoId == "a")
        = demoHits.find? (fun h => h.videoId == "a") :=
  ⟨(c5_dedup_first_seen_idempotent demoHits).1,
   (c5_dedup_first_seen_idempotent demoHits).2.2.2.1,
   (c5_dedup_first_seen_idempotent demoHits).2.2.2.2 "a" (by decide)⟩

/-!
The detail resolver (`src/app.py` lines 265-284 and `get_video_details`
in `src/modules/youtube_engine.py` lines 343-355).  The detail provider
is, like the search provider, an arbitrary function from a call counter
to a response.
-/

/-- Fixed-size-50 chunking, `[u[i:i+50] for i in range(0, len(u), 50)]`,
written with a structural fuel (`l.length` always suffices since each
step consumes at least one element). -/
def chunk50Go {α : Type} : Nat → List α → List (List α)
  | 0, _ => []
  | _, [] => []
  | f + 1, l => l.take 50 :: chunk50Go f (l.drop 50)

/-- Chunking a list into consecutive runs of 50. -/
def chunk50 {α : Type} (l : List α) : List (List α) := chunk50Go l.length l

/-- A detail record: the video identifier plus an opaque payload tag. -/
structure Detail where
  id : String
  payload : Nat
deriving DecidableEq

/-- What the remote detail service does on one call. -/
inductive DetailResp where
  | ok (items : List Detail)
  | exn (e : Exn)

/-- Source `get_video_details`: batch the requested ids in groups of 50;
for each batch make one provider call, extending the result list on
success and merely logging on exception — the function catches every
exception internally and never raises.  The second component threads the
provider-call counter. -/
def get_video_details (svc : Nat → DetailResp) (calls0 : Nat)
    (video_ids : List String) : List Detail × Nat :=
  (chunk50 video_ids).foldl (fun acc _batch =>
    match svc acc.2 with
    | .ok items => (acc.1 ++ items, acc.2 + 1)
    | .exn _ => (acc.1, acc.2 + 1)) ([], calls0)

/-- Python-dict insert/overwrite (`all_details[id] = d`): overwrite in
place when the key exists, else append (insertion order preserved). -/
def updDetail (m : List Detail) (d : Detail) : List Detail :=
  if m.any (fun x => x.id == d.id) then m.map (fun x => if x.id == d.id then d else x)
  else m ++ [d]

/-- Source `all_details.update({d["id"]: d for d in det})`: last write
wins per identifier. -/
def updDetails (m : List Detail) (det : List Detail) : List Detail :=
  det.foldl updDetail m

/-- Source `_yt`'s detail-resolution phase: chunk the unique hits in
groups of 50, extract the non-empty identifiers of each chunk, fetch the
chunk's details and merge them into the identifier-keyed dictionary.
The `try/except` around the fetch (which would rotate to the next
credential and retry once) never fires, because `get_video_details`
catches every provider exception itself — so the embedded resolver is
exactly the `try` path.  Returns the merged detail list and the number
of detail-provider calls made. -/
def resolveDetails (svc : Nat → DetailResp) (u : List SearchHit) : List Detail × Nat :=
  (chunk50 u).foldl (fun acc chunk =>
    let vs := (chunk.map (fun h => h.videoId)).filter (fun v => v ≠ "")
    let dc := get_video_details svc acc.2 vs
    (updDetails acc.1 dc.1, dc.2)) ([], 0)

/-- C6 evaluation at the failing input: for a single chunk `["a"]` whose
detail-provider call raises, the resolver makes exactly one provider
call — not the two calls (initial attempt plus one retry with the next
credential) that the claim requires — and the chunk contributes zero
detail records; the chunk partition itself is as claimed: 120 unique
identifiers give exactly chunks of sizes 50, 50, 20. -/
theorem c6_detail_failure_single_attempt :
    (resolveDetails (fun _ => DetailResp.exn ⟨none, "backend error"⟩) [⟨"a", 1⟩]).2 = 1
    ∧ (resolveDetails (fun _ => DetailResp.exn ⟨none, "backend error"⟩) [⟨"a", 1⟩]).1 = []
    ∧ ¬ ((resolveDetails (fun _ => DetailResp.exn ⟨none, "backend error"⟩) [⟨"a", 1⟩]).2 = 2)
    ∧ (chunk50 (List.range 120)).map List.length = [50, 50, 20] := by
  refine ⟨rfl, rfl, by decide, by decide⟩

/-!
The filter pipeline (`src/modules/youtube_engine.py` lines 534-622 and
`_pf` in `src/app.py` lines 293-317).  A DataFrame row is a
`VideoRecord`; a DataFrame is a list of records; `df[mask].copy()` is
`List.filter`.  `filter_title_regex`'s pattern matcher (Python `re`) is
abstracted as a function parameter.
-/

/-- The enriched video entity, restricted to the fields the filter
stages read. -/
structure VideoRecord where
  video_id : String
  title : String
  channel : String
  description : String
  views : Nat
  likes : Nat
  comments : Nat
  age_days : Int
  upload_hour : Int
  duration_seconds : Nat
  has_geo : Bool
  tag_count : Nat
  is_default_filename : Bool
  title_length : Nat
  all_caps_title : Bool
  has_emoji : Bool
  desc_length : Nat
  has_links_in_desc : Bool
  definition : String
  licensed_content : Bool
  views_per_day : ℚ
  weirdness_score : ℚ
deriving DecidableEq

/-- Case-insensitive substring test, pandas
`str.contains(sub, case=False)`. -/
def ciContains (hay sub : String) : Bool := hasSub (lowerStr hay) (lowerStr sub)

/-- Source `filter_by_views` (views ceiling, default threshold 0). -/
def filter_by_views (df : List VideoRecord) (max_views : Nat) : List VideoRecord :=
  if df.isEmpty then df else df.filter (fun v => v.views ≤ max_views)

/-- Source `filter_by_min_views`. -/
def filter_by_min_views (df : List VideoRecord) (min_views : Nat) : List VideoRecord :=
  if df.isEmpty then df else df.filter (fun v => min_views ≤ v.views)

/-- Source `filter_by_duration`. -/
def filter_by_duration (df : List VideoRecord) (min_secs max_secs : Nat) : List VideoRecord :=
  if df.isEmpty then df
  else df.filter (fun v => min_secs ≤ v.duration_seconds ∧ v.duration_seconds ≤ max_secs)

/-- Source `filter_default_filenames_only`. -/
def filter_default_filenames_only (df : List VideoRecord) : List VideoRecord :=
  if df.isEmpty then df else df.filter (fun v => v.is_default_filename)

/-- Source `filter_by_weirdness`. -/
def filter_by_weirdness (df : List VideoRecord) (min_score : ℚ) : List VideoRecord :=
  if df.isEmpty then df else df.filter (fun v => min_score ≤ v.weirdness_score)

/-- Source `filter_has_geolocation`. -/
def filter_has_geolocation (df : List VideoRecord) : List VideoRecord :=
  if df.isEmpty then df else df.filter (fun v => v.has_geo)

/-- Source `filter_no_engagement`. -/
def filter_no_engagement (df : List VideoRecord) : List VideoRecord :=
  if df.isEmpty then df else df.filter (fun v => v.likes = 0 ∧ v.comments = 0)

/-- Source `filter_by_age`. -/
def filter_by_age (df : List VideoRecord) (min_days max_days : Int) : List VideoRecord :=
  if df.isEmpty then df
  else df.filter (fun v => min_days ≤ v.age_days ∧ v.age_days ≤ max_days)

/-- Source `filter_no_description` (description shorter than 10). -/
def filter_no_description (df : List VideoRecord) : List VideoRecord :=
  if df.isEmpty then df else df.filter (fun v => v.desc_length < 10)

/-- Source `filter_no_tags`. -/
def filter_no_tags (df : List VideoRecord) : List VideoRecord :=
  if df.isEmpty then df else df.filter (fun v => v.tag_count = 0)

/-- Source `filter_by_upload_hour`. -/
def filter_by_upload_hour (df : List VideoRecord) (min_hour max_hour : Int) : List VideoRecord :=
  if df.isEmpty then df
  else df.filter (fun v => min_hour ≤ v.upload_hour ∧ v.upload_hour ≤ max_hour)

/-- Source `filter_short_title` (threshold passed explicitly; `_pf` uses
the source default 15). -/
def filter_short_title (df : List VideoRecord) (max_len : Nat) : List VideoRecord :=
  if df.isEmpty then df else df.filter (fun v => v.title_length ≤ max_len)

/-- Source `filter_all_caps`. -/
def filter_all_caps (df : List VideoRecord) : List VideoRecord :=
  if df.isEmpty then df else df.filter (fun v => v.all_caps_title)

/-- Source `filter_has_emoji`. -/
def filter_has_emoji (df : List VideoRecord) : List VideoRecord :=
  if df.isEmpty then df else df.filter (fun v => v.has_emoji)

/-- Source `filter_sd_only`. -/
def filter_sd_only (df : List VideoRecord) : List VideoRecord :=
  if df.isEmpty then df else df.filter (fun v => v.definition = "sd")

/-- Source `filter_no_links`. -/
def filter_no_links (df : List VideoRecord) : List VideoRecord :=
  if df.isEmpty then df else df.filter (fun v => v.has_links_in_desc = false)

/-- Source `filter_title_contains` (no-op on an empty needle). -/
def filter_title_contains (df : List VideoRecord) (substring : String) : List VideoRecord :=
  if df.isEmpty ∨ substring = "" then df
  else df.filter (fun v => ciContains v.title substring)

/-- Source `filter_title_regex`: the compiled-regex matcher (Python
`re`, case-insensitive) is abstracted as the parameter `m`. -/
def filter_title_regex (m : String → String → Bool) (df : List VideoRecord)
    (pattern : String) : List VideoRecord :=
  if df.isEmpty ∨ pattern = "" then df
  else df.filter (fun v => m pattern v.title)

/-- Source `filter_description_contains`. -/
def filter_description_contains (df : List VideoRecord) (substring : String) : List VideoRecord :=
  if df.isEmpty ∨ substring = "" then df
  else df.filter (fun v => ciContains v.description substring)

/-- Source `filter_channel_contains`. -/
def filter_channel_contains (df : List VideoRecord) (substring : String) : List VideoRecord :=
  if df.isEmpty ∨ substring = "" then df
  else df.filter (fun v => ciContains v.channel substring)

/-- Source `filter_by_views_per_day`. -/
def filter_by_views_per_day (df : List VideoRecord) (max_vpd : ℚ) : List VideoRecord :=
  if df.isEmpty then df else df.filter (fun v => v.views_per_day ≤ max_vpd)

/-- Source `filter_exclude_licensed`. -/
def filter_exclude_licensed (df : List VideoRecord) : List VideoRecord :=
  if df.isEmpty then df else df.filter (fun v => v.licensed_content = false)

/-- The keyword configuration of `_pf`, with the defaults of its
`kw.get(...)` calls. -/
structure PfKw where
  mnv : Nat
  mnd : Nat
  mxd : Nat
  od : Bool
  mw : ℚ
  gh : Bool
  go : Bool
  tc : String
  tr : String
  st : Bool
  ac : Bool
  nd : Bool
  nt : Bool
  nl : Bool
  sd : Bool
  ul : Bool
  mvp : ℚ
  mna : Nat
  mxa : Int
  hr : Int × Int
  dc : String
  cf : String

/-- The all-default `_pf` configuration: every `kw.get` falls back to
its default. -/
def pfDefault : PfKw :=
  ⟨0, 0, 999999, false, 0, false, false, "", "", false, false, false, false,
   false, false, false, 1000, 0, 99999, (0, 23), "", ""⟩

/-- Source `_pf` (`src/app.py` lines 293-317): the views-ceiling stage is
applied unconditionally; every other stage is gated on its configuration
being non-default. -/
def _pf (m : String → String → Bool) (df : List VideoRecord) (mv : Nat)
    (kw : PfKw) : List VideoRecord :=
  if df.isEmpty then df else
  let df := filter_by_views df mv
  let df := if 0 < kw.mnv then filter_by_min_views df kw.mnv else df
  let df := if 0 < kw.mnd ∨ kw.mxd < 999999 then filter_by_duration df kw.mnd kw.mxd else df
  let df := if kw.od then filter_default_filenames_only df else df
  let df := if 0 < kw.mw then filter_by_weirdness df kw.mw else df
  let df := if kw.gh then filter_no_engagement df else df
  let df := if kw.go then filter_has_geolocation df else df
  let df := if kw.tc ≠ "" then filter_title_contains df kw.tc else df
  let df := if kw.tr ≠ "" then filter_title_regex m df kw.tr else df
  let df := if kw.st then filter_short_title df 15 else df
  let df := if kw.ac then filter_all_caps df else df
  let df := if kw.nd then filter_no_description df else df
  let df := if kw.nt then filter_no_tags df else df
  let df := if kw.nl then filter_no_links df else df
  let df := if kw.sd then filter_sd_only df else df
  let df := if kw.ul then filter_exclude_licensed df else df
  let df := if kw.mvp < 1000 then filter_by_views_per_day df kw.mvp else df
  let df := if 0 < kw.mna ∨ kw.mxa < 99999 then filter_by_age df kw.mna kw.mxa else df
  let df := if kw.hr ≠ (0, 23) then filter_by_upload_hour df kw.hr.1 kw.hr.2 else df
  let df := if kw.dc ≠ "" then filter_description_contains df kw.dc else df
  let df := if kw.cf ≠ "" then filter_channel_contains df kw.cf else df
  df

/-- Guard-plus-filter stages never lengthen the collection. -/
theorem length_guard_filter_le (c : Prop) [Decidable c] (df : List VideoRecord)
    (p : VideoRecord → Bool) : (if c then df else df.filter p).length ≤ df.length := by
  split
  · exact le_refl _
  · exact List.length_filter_le p df

/-- A concrete record with one view (all other fields arbitrary). -/
def sampleRecord : VideoRecord :=
  ⟨"v1", "My title", "chan", "some description", 1, 0, 0, 10, 5, 60, false, 0,
   false, 8, false, false, 16, false, "hd", false, (1 : ℚ) / 10, 30⟩

/-- C7 counterexample: the views-ceiling stage at its default/zero
threshold does not leave the collection unchanged — with threshold 0 it
keeps only zero-view records and drops a record with one view. -/
theorem c7_counterexample_views_ceiling_zero :
    ¬ (filter_by_views [sampleRecord] 0 = [sampleRecord]) := by
  decide

/-- Guard-plus-filter stages return a subsequence of their input. -/
theorem guard_filter_sublist (c : Prop) [Decidable c] (df : List VideoRecord)
    (p : VideoRecord → Bool) : (if c then df else df.filter p).Sublist df := by
  split
  · exact List.Sublist.refl df
  · exact List.filter_sublist df

/-- C7 (amended): every filter stage returns a subsequence of its input
(hence never increases the collection's size and never re-adds records);
the pipeline `_pf` with its entire gated configuration at the defaults
reduces to just the unconditional views-ceiling stage, so every gated
stage at default configuration leaves the collection unchanged; and the
min-views stage at threshold 0 is the identity — but the views-ceiling
stage at threshold 0 is not (see the counterexample). -/
theorem c7_amended_stages_shrink_and_default_noop :
    (∀ (df : List VideoRecord) (mv : Nat), (filter_by_views df mv).Sublist df)
    ∧ (∀ (df : List VideoRecord) (mnv : Nat), (filter_by_min_views df mnv).Sublist df)
    ∧ (∀ (df : List VideoRecord) (a b : Nat), (filter_by_duration df a b).Sublist df)
    ∧ (∀ df : List VideoRecord, (filter_default_filenames_only df).Sublist df)
    ∧ (∀ (df : List VideoRecord) (q : ℚ), (filter_by_weirdness df q).Sublist df)
    ∧ (∀ df : List VideoRecord, (filter_has_geolocation df).Sublist df)
    ∧ (∀ df : List VideoRecord, (filter_no_engagement df).Sublist df)
    ∧ (∀ (df : List VideoRecord) (a b : Int), (filter_by_age df a b).Sublist df)
    ∧ (∀ df : List VideoRecord, (filter_no_description df).Sublist df)
    ∧ (∀ df : List VideoRecord, (filter_no_tags df).Sublist df)
    ∧ (∀ (df : List VideoRecord) (a b : Int), (filter_by_upload_hour df a b).Sublist df)
    ∧ (∀ (df : List VideoRecord) (n : Nat), (filter_short_title df n).Sublist df)
    ∧ (∀ df : List VideoRecord, (filter_all_caps df).Sublist df)
    ∧ (∀ df : List VideoRecord, (filter_has_emoji df).Sublist df)
    ∧ (∀ df : List VideoRecord, (filter_sd_only df).Sublist df)
    ∧ (∀ df : List VideoRecord, (filter_no_links df).Sublist df)
    ∧ (∀ (df : List VideoRecord) (s : String), (filter_title_contains df s).Sublist df)
    ∧ (∀ (m : String → String → Bool) (df : List VideoRecord) (s : String),
        (filter_title_regex m df s).Sublist df)
    ∧ (∀ (df : List VideoRecord) (s : String), (filter_description_contains df s).Sublist df)
    ∧ (∀ (df : List VideoRecord) (s : String), (filter_channel_contains df s).Sublist df)
    ∧ (∀ (df : List VideoRecord) (q : ℚ), (filter_by_views_per_day df q).Sublist df)
    ∧ (∀ df : List VideoRecord, (filter_exclude_licensed df).Sublist df)
    ∧ (∀ (m : String → String → Bool) (df : List VideoRecord) (mv : Nat),
        _pf m df mv pfDefault = filter_by_views df mv)
    ∧ (∀ df : List VideoRecord, filter_by_min_views df 0 = df) := by
  refine ⟨fun df mv => guard_filter_sublist _ df _,
    fun df mnv => guard_filter_sublist _ df _,
    fun df a b => guard_filter_sublist _ df _,
    fun df => guard_filter_sublist _ df _,
    fun df q => guard_filter_sublist _ df _,
    fun df => guard_filter_sublist _ df _,
    fun df => guard_filter_sublist _ df _,
    fun df a b => guard_filter_sublist _ df _,
    fun df => guard_filter_sublist _ df _,
    fun df => guard_filter_sublist _ df _,
    fun df a b => guard_filter_sublist _ df _,
    fun df n => guard_filter_sublist _ df _,
    fun df => guard_filter_sublist _ df _,
    fun df => guard_filter_sublist _ df _,
    fun df => guard_filter_sublist _ df _,
    fun df => guard_filter_sublist _ df _,
    fun df s => guard_filter_sublist _ df _,
    fun m df s => guard_filter_sublist _ df _,
    fun df s => guard_filter_sublist _ df _,
    fun df s => guard_filter_sublist _ df _,
    fun df q => guard_filter_sublist _ df _,
    fun df => guard_filter_sublist _ df _, ?_, ?_⟩
  · intro m df mv
    by_cases h : df.isEmpty
    · simp [_pf, pfDefault, filter_by_views, h]
    · simp [_pf, pfDefault, h]
  · intro df
    by_cases h : df.isEmpty
    · simp [filter_by_min_views, h]
    · simp [filter_by_min_views, h, List.filter_eq_self]

/-!
Enrichment of age and velocity (`parse_video_data`,
`src/modules/youtube_engine.py` lines 408-413 and 425).  Timestamps are
modelled as integer seconds; `(datetime.now() - published_dt).days` is
floor division of the difference by 86400 (Python `timedelta.days`
floors).
-/

/-- Source age computation: `(datetime.now() - published_dt).days` when
the publish timestamp parsed, else 0.  No clamping. -/
def parse_age_days (now : ℤ) (published : Option ℤ) : ℤ :=
  match published with
  | some p => (now - p).fdiv 86400
  | none => 0

/-- Source `views_per_day`: `round(views / max(age_days, 1), 4)`. -/
def views_per_day_of (views age_days : ℤ) : ℚ :=
  pyRound4 ((views : ℚ) / ((max age_days 1 : ℤ) : ℚ))

/-- Modelled from the spec: "ageDays = max(0, now - publishTimestamp)" —
the claimed clamped age, which the source does not implement. -/
def ageDaysSpec (now p : ℤ) : ℤ := max 0 ((now - p).fdiv 86400)

/-- C9 counterexample: for a publish timestamp one day in the future of
the supplied now, the code computes age -1, not the clamped 0 the claim
asserts. -/
theorem c9_counterexample_negative_age :
    parse_age_days 0 (some 86400) = -1
    ∧ ¬ (parse_age_days 0 (some 86400) = ageDaysSpec 0 86400) := by
  decide

/-- Banker's rounding moves a rational by at most one half. -/
theorem abs_rhe_sub_le (x : ℚ) : |(rhe x : ℚ) - x| ≤ 1 / 2 := by
  simp only [rhe]
  have h0 : (Int.floor x : ℚ) ≤ x := Int.floor_le x
  have h1 : x < (Int.floor x : ℚ) + 1 := Int.lt_floor_add_one x
  split
  · rename_i h
    rw [abs_sub_comm, abs_of_nonneg (by linarith)]
    linarith
  · split
    · rename_i h h'
      rw [abs_of_nonneg (by push_cast; linarith)]
      push_cast
      linarith
    · split
      · rename_i h h' _
        have hx : x - (Int.floor x : ℚ) = 1 / 2 := by linarith
        rw [abs_sub_comm, abs_of_nonneg (by linarith)]
        linarith
      · rename_i h h' _
        have hx : x - (Int.floor x : ℚ) = 1 / 2 := by linarith
        rw [abs_of_nonneg (by push_cast; linarith)]
        push_cast
        linarith

/-- C9 (amended): the code's age is the unclamped floor of the day
difference (so it is negative for future publish timestamps and agrees
with the spec's `max(0, ...)` exactly when the publish timestamp is not
in the future), and the code's views-per-day is
`views / max(ageDays, 1)` rounded to 4 decimals — within 1/20000 of the
claim's exact quotient. -/
theorem c9_amended_age_unclamped_vpd_rounded :
    (∀ now p : ℤ, p ≤ now → parse_age_days now (some p) = ageDaysSpec now p)
    ∧ (∀ now p : ℤ, parse_age_days now (some p) = (now - p).fdiv 86400)
    ∧ (∀ views age_days : ℤ,
        |views_per_day_of views age_days
          - (views : ℚ) / ((max age_days 1 : ℤ) : ℚ)| ≤ 1 / 20000) := by
  refine ⟨?_, fun now p => rfl, ?_⟩
  · intro now p hle
    unfold parse_age_days ageDaysSpec
    rw [max_eq_right (Int.fdiv_nonneg (by omega) (by omega))]
  · intro views age_days
    unfold views_per_day_of pyRound4
    set y : ℚ := (views : ℚ) / ((max age_days 1 : ℤ) : ℚ) with hy
    have h : (rhe (y * 10000) : ℚ) / 10000 - y = ((rhe (y * 10000) : ℚ) - y * 10000) / 10000 := by
      field_simp
      ring
    rw [h, abs_div, abs_of_nonneg (by norm_num : (0 : ℚ) ≤ 10000)]
    have hb := abs_rhe_sub_le (y * 10000)
    rw [div_le_iff₀ (by norm_num : (0 : ℚ) < 10000)]
    calc |(rhe (y * 10000) : ℚ) - y * 10000| ≤ 1 / 2 := hb
      _ = 1 / 20000 * 10000 := by norm_num

/-- C9 witness: the clamped formula agrees with the code at a concrete
past timestamp. -/
theorem c9_amended_age_unclamped_vpd_rounded_witness :
    parse_age_days 172800 (some 86400) = ageDaysSpec 172800 86400 :=
  c9_amended_age_unclamped_vpd_rounded.1 172800 86400 (by decide)

/-!
Query generation (`build_search_queries`,
`src/modules/youtube_engine.py` lines 272-292).
-/

/-- The filename-pattern dictionary (`FILENAME_PATTERNS`), as an ordered
key/value list. -/
def FILENAME_PATTERNS : List (String × String) := [
  ("IMG_XXXX", "IMG_"), ("DSC_XXXX", "DSC_"), ("DSCN_XXXX", "DSCN_"),
  ("DSCF_XXXX", "DSCF_"), ("MVI_XXXX", "MVI_"), ("P10XXXXX", "P10"),
  ("SAM_XXXX", "SAM_"), ("CIMG_XXXX", "CIMG"), ("PICT_XXXX", "PICT"),
  ("CRW_XXXX", "CRW_"), ("IMGP_XXXX", "IMGP"), ("_MG_XXXX", "_MG_"),
  ("MOV_XXXX", "MOV_"), ("VID_XXXX", "VID_"), ("VIDEO_XXXX", "VIDEO_"),
  ("Trim_XXXX", "trim"), ("Screen Recording", "screen recording"),
  ("Screencast", "screencast"), ("20XX-XX-XX", "2009-"),
  ("FullSizeRender", "FullSizeRender"), ("RPReplay", "RPReplay"),
  ("InShot", "InShot_"),
  ("GOPR_XXXX", "GOPR"), ("GP_XXXXXX", "GP0"), ("GX_XXXXXX", "GX01"),
  ("HERO_XXXX", "HERO"), ("GH_XXXXXX", "GH01"),
  ("DJI_XXXX", "DJI_"), ("DJI_0XXX", "DJI_0"),
  ("DCIM", "DCIM"), ("100MEDIA", "100MEDIA"), ("100ANDRO", "100ANDRO"),
  ("Untitled", "Untitled"), ("New Video", "new video"),
  ("Video 1", "\"video 1\""), ("test", "test video upload"),
  ("Copy of", "copy of"), ("Movie on", "movie on"),
  ("clip", "\"clip\""), ("recording", "\"recording\""),
  ("capture", "\"capture\""), ("vlcsnap", "vlcsnap"),
  ("bandicam", "bandicam"), ("OBS_", "OBS "),
  ("Rec_", "Rec_"), ("WIN_", "WIN_"),
  ("Skype call", "skype call"), ("Zoom_", "zoom meeting recording"),
  ("Hangouts", "hangouts video"), ("Facetime", "facetime recording")
]

/-- Python `FILENAME_PATTERNS.get(pk, pk)`. -/
def fpGet (pk : String) : String :=
  match FILENAME_PATTERNS.find? (fun kv => kv.1 == pk) with
  | some kv => kv.2
  | none => pk

/-- The query-generation phase of `build_search_queries` (lines 273-284):
the stripped keywords, then each selected filename pattern (suffixed with
the keywords when present), then the stripped custom pattern, then each
weirdness keyword (suffixed likewise). -/
def genQueries (keywords : String) (filename_patterns : List String)
    (custom_pattern : String) (weirdness_keywords : List String) : List String :=
  let kw := pstrip keywords
  (if kw ≠ "" then [kw] else [])
    ++ filename_patterns.map (fun pk =>
        let p := fpGet pk
        if kw ≠ "" then p ++ " " ++ kw else p)
    ++ (if pstrip custom_pattern ≠ "" then [pstrip custom_pattern] else [])
    ++ weirdness_keywords.map (fun wk => if kw ≠ "" then wk ++ " " ++ kw else wk)

/-- The dedup phase of `build_search_queries` (lines 285-291): keep the
first occurrence of each `q.strip().lower()` key, emitting `q.strip()`. -/
def dedupCIGo (seen : List String) : List String → List String
  | [] => []
  | q :: rest =>
    let ql := lowerStr (pstrip q)
    if ql ∈ seen then dedupCIGo seen rest
    else pstrip q :: dedupCIGo (ql :: seen) rest

/-- Source `build_search_queries`: generate, deduplicate
case-insensitively, and fall back to `["IMG_"]` when nothing resulted. -/
def build_search_queries (keywords : String) (filename_patterns : List String)
    (custom_pattern : String) (weirdness_keywords : List String) : List String :=
  let result := dedupCIGo []
    (genQueries keywords filename_patterns custom_pattern weirdness_keywords)
  if result = [] then ["IMG_"] else result

/-- Every query surviving the case-insensitive dedup has a lowercase key
outside the seen set. -/
theorem dedupCIGo_not_seen : ∀ (seen : List String) (l : List String) (q : String),
    q ∈ dedupCIGo seen l → lowerStr q ∉ seen := by
  intro seen l
  induction l generalizing seen with
  | nil => intro q hmem; simp [dedupCIGo] at hmem
  | cons hd rest ih =>
    intro q hmem
    simp only [dedupCIGo] at hmem
    split at hmem
    · exact ih seen q hmem
    · rename_i hcond
      rcases List.mem_cons.mp hmem with heq | hmem'
      · subst heq; exact hcond
      · intro hin
        exact ih (lowerStr (pstrip hd) :: seen) q hmem' (List.mem_cons_of_mem _ hin)

/-- The surviving queries have pairwise distinct lowercase keys. -/
theorem dedupCIGo_nodup : ∀ (seen : List String) (l : List String),
    ((dedupCIGo seen l).map lowerStr).Nodup := by
  intro seen l
  induction l generalizing seen with
  | nil => simp [dedupCIGo]
  | cons hd rest ih =>
    simp only [dedupCIGo]
    split
    · exact ih _
    · simp only [List.map_cons, List.nodup_cons]
      refine ⟨?_, ih _⟩
      intro hin
      rcases List.mem_map.mp hin with ⟨q, hmem, heq⟩
      exact dedupCIGo_not_seen _ _ q hmem (by rw [heq]; exact List.mem_cons_self _ _)

/-- The surviving queries are the stripped generated queries in order
(a subsequence of the stripped input). -/
theorem dedupCIGo_sublist : ∀ (seen : List String) (l : List String),
    (dedupCIGo seen l).Sublist (l.map pstrip) := by
  intro seen l
  induction l generalizing seen with
  | nil => simp [dedupCIGo]
  | cons hd rest ih =>
    simp only [dedupCIGo, List.map_cons]
    split
    · exact List.Sublist.cons _ (ih _)
    · exact List.Sublist.cons₂ _ (ih _)

/-- C10: `build_search_queries` always returns a non-empty list; when the
generation phase produced nothing it returns the fallback `["IMG_"]`;
otherwise it returns the generated queries (stripped) deduplicated
case-insensitively, keeping the first occurrence of each query. -/
theorem c10_build_search_queries_nonempty_fallback_dedup :
    ∀ (keywords : String) (filename_patterns : List String)
      (custom_pattern : String) (weirdness_keywords : List String),
      build_search_queries keywords filename_patterns custom_pattern weirdness_keywords ≠ []
      ∧ (genQueries keywords filename_patterns custom_pattern weirdness_keywords = [] →
          build_search_queries keywords filename_patterns custom_pattern weirdness_keywords
            = ["IMG_"])
      ∧ (genQueries keywords filename_patterns custom_pattern weirdness_keywords ≠ [] →
          build_search_queries keywords filename_patterns custom_pattern weirdness_keywords
            = dedupCIGo [] (genQueries keywords filename_patterns custom_pattern
                weirdness_keywords)
          ∧ ((build_search_queries keywords filename_patterns custom_pattern
                weirdness_keywords).map lowerStr).Nodup
          ∧ (build_search_queries keywords filename_patterns custom_pattern
              weirdness_keywords).Sublist
              ((genQueries keywords filename_patterns custom_pattern
                weirdness_keywords).map pstrip)) := by
  intro keywords filename_patterns custom_pattern weirdness_keywords
  cases hg : genQueries keywords filename_patterns custom_pattern weirdness_keywords with
  | nil =>
    refine ⟨?_, fun _ => ?_, fun hne => absurd rfl hne⟩ <;>
      simp [build_search_queries, hg, dedupCIGo]
  | cons q rest =>
    have hne : dedupCIGo [] (q :: rest) ≠ [] := by
      simp [dedupCIGo]
    have hb : build_search_queries keywords filename_patterns custom_pattern weirdness_keywords
        = dedupCIGo [] (q :: rest) := by
      simp only [build_search_queries, hg]
      rw [if_neg hne]
    refine ⟨by rw [hb]; exact hne, fun habs => absurd habs (List.cons_ne_nil q rest),
      fun _ => ?_⟩
    rw [hb]
    exact ⟨rfl, dedupCIGo_nodup [] (q :: rest), dedupCIGo_sublist [] (q :: rest)⟩

/-- C10 witness: the fallback on fully-empty inputs and the dedup
properties on concrete inputs. -/
theorem c10_build_search_queries_witness :
    build_search_queries "" [] "" [] = ["IMG_"]
    ∧ ((build_search_queries " Cat " [] "cat" ["vhs"]).map lowerStr).Nodup :=
  ⟨(c10_build_search_queries_nonempty_fallback_dedup "" [] "" []).2.1 (by decide),
   ((c10_build_search_queries_nonempty_fallback_dedup " Cat " [] "cat" ["vhs"]).2.2
      (by decide)).2.1⟩

end ObscurityEngine
